import Mathlib

/-! Verification of the Titier backend process supervisor, embedded from
src/frontend/src-tauri/src/lib.rs.

The Rust code guards a single optional child-process handle behind a
mutex and exposes the Tauri commands start_backend, stop_backend,
get_backend_status and greet, plus a best-effort auto-start task in the
setup hook of run (release builds only).  The embedding below makes the
external collaborators explicit: lock acquisition either succeeds or
yields the poison error string, the shell sidecar pipeline yields a
SpawnOutcome, and the kill request yields a KillOutcome.  Each command
returns its Rust Result value together with the updated state;
start_backend additionally reports how many spawn attempts it performed,
so that spawn counting over call sequences can be stated. -/

/-- A handle to a spawned child process (CommandChild in the source),
exposing the platform-assigned pid. -/
structure CommandChild where
  pid : Nat
deriving DecidableEq

/-- The managed supervisor state (BackendState in the source): at most one
tracked child handle, guarded by a mutex in the Rust code. -/
structure BackendState where
  child : Option CommandChild
deriving DecidableEq

/-- Outcome of the sidecar pipeline used by start_backend: resolving the
sidecar command can fail, the spawn itself can fail, or a child with a pid
is produced. -/
inductive SpawnOutcome where
  | sidecarErr : String → SpawnOutcome
  | spawnErr : String → SpawnOutcome
  | spawned : Nat → SpawnOutcome
deriving DecidableEq

/-- Outcome of the kill request issued by stop_backend. -/
inductive KillOutcome where
  | ok : KillOutcome
  | err : String → KillOutcome
deriving DecidableEq

/-- The start_backend command.  The poison argument is the stringified
mutex poison error when the lock is poisoned, and spawn is what the shell
sidecar pipeline would produce if invoked.  Returns the Result value, the
new state, and the number of spawn attempts performed (0 or 1). -/
def start_backend (poison : Option String) (spawn : SpawnOutcome)
    (state : BackendState) : Except String String × BackendState × Nat :=
  match poison with
  | some e => (Except.error e, state, 0)
  | none =>
    match state.child with
    | some _ => (Except.ok "Backend já está rodando", state, 0)
    | none =>
      match spawn with
      | SpawnOutcome.sidecarErr e =>
          (Except.error ("Erro ao configurar sidecar: " ++ e), state, 0)
      | SpawnOutcome.spawnErr e =>
          (Except.error ("Sidecar não disponível (modo dev?): " ++ e), state, 1)
      | SpawnOutcome.spawned pid =>
          (Except.ok "Backend iniciado com sucesso", ⟨some ⟨pid⟩⟩, 1)

/-- The stop_backend command: takes the handle out of the slot (if any)
with Option.take and issues the kill request.  Returns the Result value
and the new state. -/
def stop_backend (poison : Option String) (kill : KillOutcome)
    (state : BackendState) : Except String String × BackendState :=
  match poison with
  | some e => (Except.error e, state)
  | none =>
    match state.child with
    | some _ =>
      match kill with
      | KillOutcome.ok => (Except.ok "Backend parado", ⟨none⟩)
      | KillOutcome.err e => (Except.error e, ⟨none⟩)
    | none => (Except.ok "Backend não estava rodando", state)

/-- The alive/pid JSON object returned by get_backend_status. -/
structure BackendStatus where
  alive : Bool
  pid : Option Nat
deriving DecidableEq

/-- The get_backend_status command: reads the slot under the lock and
reports the tracked liveness and pid. -/
def get_backend_status (poison : Option String) (state : BackendState) :
    Except String BackendStatus :=
  match poison with
  | some e => Except.error e
  | none =>
    match state.child with
    | some child => Except.ok ⟨true, some child.pid⟩
    | none => Except.ok ⟨false, none⟩

/-- The greet command: a pure function of the name; its source signature
takes no supervisor state. -/
def greet (name : String) : String :=
  "Hello, " ++ name ++ "! You\x27ve been greeted from Rust!"

/-- Delay in milliseconds slept by the auto-start task before spawning
(Duration.from_millis 500 in the source). -/
def autoStartDelayMillis : Nat := 500

/-- The auto-start task body from the setup hook of run (release builds):
after the fixed delay it runs the sidecar pipeline directly and logs the
error with eprintln if the pipeline fails.  The spawned child handle is
dropped and the managed BackendState is neither read nor written.
Returns the state (unchanged) and the log line, if any. -/
def autoStartBackend (spawn : SpawnOutcome) (state : BackendState) :
    BackendState × Option String :=
  match spawn with
  | SpawnOutcome.sidecarErr e =>
      (state, some ("Erro ao iniciar backend: " ++ e))
  | SpawnOutcome.spawnErr e =>
      (state, some ("Erro ao iniciar backend: " ++ e))
  | SpawnOutcome.spawned _ => (state, none)

/-- One supervisor operation together with its collaborator outcome. -/
inductive Op where
  | start : SpawnOutcome → Op
  | stop : KillOutcome → Op
  | status : Op
deriving DecidableEq

/-- Number of handles the state tracks (zero or one). -/
def handleCount (state : BackendState) : Nat :=
  match state.child with
  | some _ => 1
  | none => 0

/-- Run one operation with a healthy lock, returning the new state and the
number of spawn attempts it performed. -/
def runOp (state : BackendState) : Op → BackendState × Nat
  | Op.start spawn =>
      ((start_backend none spawn state).2.1, (start_backend none spawn state).2.2)
  | Op.stop kill => ((stop_backend none kill state).2, 0)
  | Op.status => (state, 0)

/-- Run a sequence of operations from a state, accumulating the spawn
attempts performed along the way. -/
def runOps (state : BackendState) : List Op → BackendState × Nat
  | [] => (state, 0)
  | op :: ops =>
      ((runOps (runOp state op).1 ops).1,
       (runOp state op).2 + (runOps (runOp state op).1 ops).2)

/-- Whether an operation can possibly place a handle in the slot: only a
start whose spawn outcome succeeds. -/
def opCanSpawn : Op → Bool
  | Op.start (SpawnOutcome.spawned _) => true
  | _ => false

/-- The state never tracks more than one handle. -/
theorem handleCount_le_one (state : BackendState) : handleCount state ≤ 1 := by
  obtain ⟨c⟩ := state
  cases c
  · exact Nat.zero_le 1
  · exact Nat.le_refl 1

/-- An operation that cannot spawn leaves the empty state empty. -/
theorem runOp_no_spawn_none (op : Op) (h : opCanSpawn op = false) :
    (runOp ⟨none⟩ op).1 = ⟨none⟩ := by
  cases op with
  | start spawn =>
      cases spawn with
      | sidecarErr e => rfl
      | spawnErr e => rfl
      | spawned pid => simp [opCanSpawn] at h
  | stop kill => rfl
  | status => rfl

/-- A sequence of operations none of which can spawn leaves the empty
state empty. -/
theorem runOps_no_spawn_none (ops : List Op)
    (h : ∀ op ∈ ops, opCanSpawn op = false) :
    (runOps ⟨none⟩ ops).1 = ⟨none⟩ := by
  induction ops with
  | nil => rfl
  | cons op ops ih =>
      have h1 : opCanSpawn op = false := h op (List.mem_cons_self op ops)
      have h2 : ∀ o ∈ ops, opCanSpawn o = false :=
        fun o ho => h o (List.mem_cons_of_mem op ho)
      show (runOps (runOp ⟨none⟩ op).1 ops).1 = ⟨none⟩
      rw [runOp_no_spawn_none op h1]
      exact ih h2

/-- Claim C1: at most one child handle is ever tracked: after any sequence
of start/stop/status operations the state holds zero or one handle, and
starting twice from the empty state without an intervening stop performs
exactly one spawn, the second call answering with the already-running
success message whatever its own spawn collaborator would have produced. -/
theorem C1_single_handle_invariant :
    (∀ (state : BackendState) (ops : List Op),
      handleCount (runOps state ops).1 ≤ 1) ∧
    (∀ (pid : Nat) (spawn2 : SpawnOutcome),
      (start_backend none (SpawnOutcome.spawned pid) ⟨none⟩).2.2 +
        (start_backend none spawn2
          (start_backend none (SpawnOutcome.spawned pid) ⟨none⟩).2.1).2.2 = 1 ∧
      (start_backend none spawn2
          (start_backend none (SpawnOutcome.spawned pid) ⟨none⟩).2.1).1 =
        Except.ok "Backend já está rodando") := by
  constructor
  · intro state ops
    exact handleCount_le_one _
  · intro pid spawn2
    exact ⟨rfl, rfl⟩

/-- Claim C2, counterexample: with a spawn collaborator succeeding with
pid 1234 and an empty slot, the auto-start task leaves the slot empty
while start_backend would have stored the handle, so auto-start does not
have the same effect on the tracked handle slot as a start call. -/
theorem C2_counterex_auto_start :
    (autoStartBackend (SpawnOutcome.spawned 1234) ⟨none⟩).1 = ⟨none⟩ ∧
    (start_backend none (SpawnOutcome.spawned 1234) ⟨none⟩).2.1 =
      ⟨some ⟨1234⟩⟩ ∧
    ¬ (autoStartBackend (SpawnOutcome.spawned 1234) ⟨none⟩).1 =
        (start_backend none (SpawnOutcome.spawned 1234) ⟨none⟩).2.1 := by
  refine ⟨rfl, rfl, ?_⟩
  decide

/-- Claim C2 as amended: the auto-start task, run once at startup in
release builds, sleeps the fixed 500 ms delay and then spawns the sidecar
directly; it never reads or updates the tracked handle slot (the spawned
handle is dropped), and it produces a log line precisely when the sidecar
pipeline fails, propagating nothing to any caller. -/
theorem C2_auto_start_untracked (spawn : SpawnOutcome) (state : BackendState) :
    autoStartDelayMillis = 500 ∧
    (autoStartBackend spawn state).1 = state ∧
    ((autoStartBackend spawn state).2.isSome ↔
      ∀ pid, spawn ≠ SpawnOutcome.spawned pid) := by
  refine ⟨rfl, ?_, ?_⟩
  · cases spawn <;> rfl
  · cases spawn with
    | sidecarErr e => simp [autoStartBackend]
    | spawnErr e => simp [autoStartBackend]
    | spawned pid =>
        simp [autoStartBackend]

/-- Claim C3: from a state with no tracked handle, a successful spawn
makes start_backend return the success message and store the new handle,
and a following status query reports alive with the spawned pid. -/
theorem C3_start_success (pid : Nat) (state : BackendState)
    (h : state.child = none) :
    (start_backend none (SpawnOutcome.spawned pid) state).1 =
      Except.ok "Backend iniciado com sucesso" ∧
    (start_backend none (SpawnOutcome.spawned pid) state).2.1 =
      ⟨some ⟨pid⟩⟩ ∧
    get_backend_status none
        (start_backend none (SpawnOutcome.spawned pid) state).2.1 =
      Except.ok ⟨true, some pid⟩ := by
  obtain ⟨c⟩ := state
  have h' : c = none := h
  subst h'
  exact ⟨rfl, rfl, rfl⟩

/-- Witness for claim C3 at the empty state and pid 1234. -/
theorem C3_start_success_witness :
    (⟨none⟩ : BackendState).child = none ∧
    ((start_backend none (SpawnOutcome.spawned 1234) ⟨none⟩).1 =
        Except.ok "Backend iniciado com sucesso" ∧
      (start_backend none (SpawnOutcome.spawned 1234) ⟨none⟩).2.1 =
        ⟨some ⟨1234⟩⟩ ∧
      get_backend_status none
          (start_backend none (SpawnOutcome.spawned 1234) ⟨none⟩).2.1 =
        Except.ok ⟨true, some 1234⟩) :=
  ⟨rfl, C3_start_success 1234 ⟨none⟩ rfl⟩

/-- Claim C4: from a state with no tracked handle, a failed spawn makes
start_backend return an error carrying the underlying cause, the slot
stays empty, and a following status query still reports not alive; a
sidecar resolution failure behaves the same way with its own message. -/
theorem C4_start_failure (e : String) (state : BackendState)
    (h : state.child = none) :
    ((start_backend none (SpawnOutcome.spawnErr e) state).1 =
        Except.error ("Sidecar não disponível (modo dev?): " ++ e) ∧
      (start_backend none (SpawnOutcome.spawnErr e) state).2.1 = state ∧
      get_backend_status none
          (start_backend none (SpawnOutcome.spawnErr e) state).2.1 =
        Except.ok ⟨false, none⟩) ∧
    ((start_backend none (SpawnOutcome.sidecarErr e) state).1 =
        Except.error ("Erro ao configurar sidecar: " ++ e) ∧
      (start_backend none (SpawnOutcome.sidecarErr e) state).2.1 = state) := by
  obtain ⟨c⟩ := state
  have h' : c = none := h
  subst h'
  exact ⟨⟨rfl, rfl, rfl⟩, rfl, rfl⟩

/-- Witness for claim C4 at the empty state and a concrete cause. -/
theorem C4_start_failure_witness :
    (⟨none⟩ : BackendState).child = none ∧
    (((start_backend none (SpawnOutcome.spawnErr "no such file") ⟨none⟩).1 =
        Except.error ("Sidecar não disponível (modo dev?): " ++ "no such file") ∧
      (start_backend none (SpawnOutcome.spawnErr "no such file") ⟨none⟩).2.1 =
        ⟨none⟩ ∧
      get_backend_status none
          (start_backend none (SpawnOutcome.spawnErr "no such file") ⟨none⟩).2.1 =
        Except.ok ⟨false, none⟩) ∧
    ((start_backend none (SpawnOutcome.sidecarErr "no such file") ⟨none⟩).1 =
        Except.error ("Erro ao configurar sidecar: " ++ "no such file") ∧
      (start_backend none (SpawnOutcome.sidecarErr "no such file") ⟨none⟩).2.1 =
        ⟨none⟩)) :=
  ⟨rfl, C4_start_failure "no such file" ⟨none⟩ rfl⟩

/-- Claim C5: with a tracked handle and a kill that succeeds, stop_backend
clears the slot and returns the stopped success message, and a following
status query reports not alive with no pid. -/
theorem C5_stop_success (state : BackendState) (c : CommandChild)
    (h : state.child = some c) :
    (stop_backend none KillOutcome.ok state).1 = Except.ok "Backend parado" ∧
    (stop_backend none KillOutcome.ok state).2 = ⟨none⟩ ∧
    get_backend_status none (stop_backend none KillOutcome.ok state).2 =
      Except.ok ⟨false, none⟩ := by
  obtain ⟨x⟩ := state
  have h' : x = some c := h
  subst h'
  exact ⟨rfl, rfl, rfl⟩

/-- Witness for claim C5 at a state tracking pid 1234. -/
theorem C5_stop_success_witness :
    (⟨some ⟨1234⟩⟩ : BackendState).child = some ⟨1234⟩ ∧
    ((stop_backend none KillOutcome.ok ⟨some ⟨1234⟩⟩).1 =
        Except.ok "Backend parado" ∧
      (stop_backend none KillOutcome.ok ⟨some ⟨1234⟩⟩).2 = ⟨none⟩ ∧
      get_backend_status none (stop_backend none KillOutcome.ok ⟨some ⟨1234⟩⟩).2 =
        Except.ok ⟨false, none⟩) :=
  ⟨rfl, C5_stop_success ⟨some ⟨1234⟩⟩ ⟨1234⟩ rfl⟩

/-- Claim C6: with a tracked handle, a failing kill makes stop_backend
return the error with its cause, and every stop call — whatever the kill
result — leaves the slot cleared. -/
theorem C6_stop_kill_failure (state : BackendState) (c : CommandChild)
    (e : String) (h : state.child = some c) :
    (stop_backend none (KillOutcome.err e) state).1 = Except.error e ∧
    (∀ kill : KillOutcome, (stop_backend none kill state).2 = ⟨none⟩) := by
  obtain ⟨x⟩ := state
  have h' : x = some c := h
  subst h'
  refine ⟨rfl, ?_⟩
  intro kill
  cases kill <;> rfl

/-- Witness for claim C6 at a state tracking pid 1234 and a concrete kill
error. -/
theorem C6_stop_kill_failure_witness :
    (⟨some ⟨1234⟩⟩ : BackendState).child = some ⟨1234⟩ ∧
    ((stop_backend none (KillOutcome.err "operation not permitted")
        ⟨some ⟨1234⟩⟩).1 = Except.error "operation not permitted" ∧
      ∀ kill : KillOutcome,
        (stop_backend none kill ⟨some ⟨1234⟩⟩).2 = ⟨none⟩) :=
  ⟨rfl, C6_stop_kill_failure ⟨some ⟨1234⟩⟩ ⟨1234⟩ "operation not permitted" rfl⟩

/-- Claim C7: with a tracked handle, start_backend is an idempotent no-op:
whatever the spawn collaborator would have produced, it returns the
already-running success message, leaves the state unchanged and performs
no spawn. -/
theorem C7_start_already_running (state : BackendState) (c : CommandChild)
    (spawn : SpawnOutcome) (h : state.child = some c) :
    (start_backend none spawn state).1 = Except.ok "Backend já está rodando" ∧
    (start_backend none spawn state).2.1 = state ∧
    (start_backend none spawn state).2.2 = 0 := by
  obtain ⟨x⟩ := state
  have h' : x = some c := h
  subst h'
  exact ⟨rfl, rfl, rfl⟩

/-- Witness for claim C7 at a state tracking pid 1234 with a spawn that
would have succeeded with pid 5678. -/
theorem C7_start_already_running_witness :
    (⟨some ⟨1234⟩⟩ : BackendState).child = some ⟨1234⟩ ∧
    ((start_backend none (SpawnOutcome.spawned 5678) ⟨some ⟨1234⟩⟩).1 =
        Except.ok "Backend já está rodando" ∧
      (start_backend none (SpawnOutcome.spawned 5678) ⟨some ⟨1234⟩⟩).2.1 =
        ⟨some ⟨1234⟩⟩ ∧
      (start_backend none (SpawnOutcome.spawned 5678) ⟨some ⟨1234⟩⟩).2.2 = 0) :=
  ⟨rfl, C7_start_already_running ⟨some ⟨1234⟩⟩ ⟨1234⟩ (SpawnOutcome.spawned 5678) rfl⟩

/-- Claim C8: with no tracked handle — in particular after any operation
sequence from the initial state that contains no start with a successful
spawn — stop_backend returns the not-running success message and leaves
the state unchanged, never an error. -/
theorem C8_stop_not_running (state : BackendState) (kill : KillOutcome)
    (ops : List Op) (h : state.child = none)
    (hops : ∀ op ∈ ops, opCanSpawn op = false) :
    ((stop_backend none kill state).1 =
        Except.ok "Backend não estava rodando" ∧
      (stop_backend none kill state).2 = state) ∧
    (stop_backend none kill (runOps ⟨none⟩ ops).1).1 =
      Except.ok "Backend não estava rodando" := by
  have hrun : (runOps ⟨none⟩ ops).1 = ⟨none⟩ := runOps_no_spawn_none ops hops
  obtain ⟨x⟩ := state
  have h' : x = none := h
  subst h'
  refine ⟨⟨rfl, rfl⟩, ?_⟩
  rw [hrun]
  rfl

/-- Witness for claim C8 at the empty state after a concrete sequence of
a failed start, a stop and a status query. -/
theorem C8_stop_not_running_witness :
    ((⟨none⟩ : BackendState).child = none ∧
      (∀ op ∈ [Op.start (SpawnOutcome.spawnErr "boom"),
               Op.stop KillOutcome.ok, Op.status],
        opCanSpawn op = false)) ∧
    (((stop_backend none KillOutcome.ok ⟨none⟩).1 =
        Except.ok "Backend não estava rodando" ∧
      (stop_backend none KillOutcome.ok ⟨none⟩).2 = ⟨none⟩) ∧
     (stop_backend none KillOutcome.ok
        (runOps ⟨none⟩ [Op.start (SpawnOutcome.spawnErr "boom"),
                        Op.stop KillOutcome.ok, Op.status]).1).1 =
       Except.ok "Backend não estava rodando") :=
  ⟨⟨rfl, by decide⟩,
   C8_stop_not_running ⟨none⟩ KillOutcome.ok
     [Op.start (SpawnOutcome.spawnErr "boom"), Op.stop KillOutcome.ok, Op.status]
     rfl (by decide)⟩

/-- Claim C9: when the lock is poisoned, each of start, stop and status
returns the error variant carrying the poison message, for every state and
collaborator outcome, instead of panicking. -/
theorem C9_lock_poisoned (e : String) (state : BackendState)
    (spawn : SpawnOutcome) (kill : KillOutcome) :
    (start_backend (some e) spawn state).1 = Except.error e ∧
    (stop_backend (some e) kill state).1 = Except.error e ∧
    get_backend_status (some e) state = Except.error e :=
  ⟨rfl, rfl, rfl⟩

/-- Claim C10: greet deterministically returns exactly the greeting built
from its name argument; its signature takes no supervisor state. -/
theorem C10_greet (name : String) :
    greet name = "Hello, " ++ name ++ "! You\x27ve been greeted from Rust!" ∧
    greet "World" = "Hello, World! You\x27ve been greeted from Rust!" :=
  ⟨rfl, rfl⟩
